import Mathlib

/-!
Verification of the MCP coordination layer (`src/src-tauri/src/mcp.rs`).

The coordinator keeps three pieces of shared state — a service registry, a
tool registry (both `HashMap<String, _>`) and a message queue (`Vec`) — and
exposes registration, discovery, messaging, health and tool-execution
operations.  We embed the state as association lists with hash-map semantics
(insert replaces the existing binding for a key) and each operation as an
explicit state-passing function returning `Except MCPError α × MCPCoordinator`,
mirroring a `&self` method that may both answer and mutate.  Sources of
nondeterminism in the Rust code (`Uuid::new_v4`, `Utc::now`) become explicit
arguments.
-/

/-- A model of `serde_json::Value`. Numbers are restricted to integers, which
covers every payload appearing in the coordinator. -/
inductive Json where
  | null : Json
  | bool (b : Bool) : Json
  | num (n : Int) : Json
  | str (s : String) : Json
  | arr (items : List Json) : Json
  | obj (fields : List (String × Json)) : Json

/-- Association-list lookup with first-match semantics, modelling
`HashMap::get` (bindings are unique in any map built by the operations). -/
def mapLookup (k : String) : List (String × α) → Option α
  | [] => none
  | (k2, v) :: rest => if k2 = k then some v else mapLookup k rest

/-- Association-list insert modelling `HashMap::insert`: replaces the binding
for `k` if present, otherwise appends. -/
def mapInsert (k : String) (v : α) : List (String × α) → List (String × α)
  | [] => [(k, v)]
  | (k2, v2) :: rest =>
      if k2 = k then (k, v) :: rest else (k2, v2) :: mapInsert k v rest

/-- Association-list removal modelling `HashMap::remove` (drops every binding
for `k`; at most one exists in well-formed maps). -/
def mapRemove (k : String) : List (String × α) → List (String × α)
  | [] => []
  | (k2, v) :: rest =>
      if k2 = k then mapRemove k rest else (k2, v) :: mapRemove k rest

theorem mapLookup_insert_self (k : String) (v : α) (m : List (String × α)) :
    mapLookup k (mapInsert k v m) = some v := by
  induction m with
  | nil => simp [mapInsert, mapLookup]
  | cons hd tl ih =>
      obtain ⟨k2, v2⟩ := hd
      by_cases h : k2 = k
      · simp [mapInsert, h, mapLookup]
      · simp [mapInsert, h, mapLookup, ih]

theorem mapLookup_insert_ne (k k2 : String) (v : α) (m : List (String × α))
    (h : k2 ≠ k) : mapLookup k2 (mapInsert k v m) = mapLookup k2 m := by
  induction m with
  | nil => simp [mapInsert, mapLookup, Ne.symm h]
  | cons hd tl ih =>
      obtain ⟨k3, v3⟩ := hd
      by_cases h3 : k3 = k
      · simp [mapInsert, h3, mapLookup, Ne.symm h]
      · simp [mapInsert, h3, mapLookup, ih]

theorem mapRemove_of_lookup_none (k : String) (m : List (String × α))
    (h : mapLookup k m = none) : mapRemove k m = m := by
  induction m with
  | nil => rfl
  | cons hd tl ih =>
      obtain ⟨k2, v⟩ := hd
      by_cases h2 : k2 = k
      · simp [mapLookup, h2] at h
      · simp [mapLookup, h2] at h
        simp [mapRemove, h2, ih h]

theorem mapLookup_remove_self (k : String) (m : List (String × α)) :
    mapLookup k (mapRemove k m) = none := by
  induction m with
  | nil => rfl
  | cons hd tl ih =>
      obtain ⟨k2, v⟩ := hd
      by_cases h2 : k2 = k <;> simp [mapRemove, h2, mapLookup, ih]

theorem mapLookup_map_snd (k : String) (f : α → β) (m : List (String × α)) :
    mapLookup k (m.map (fun kv => (kv.1, f kv.2))) =
      Option.map f (mapLookup k m) := by
  induction m with
  | nil => rfl
  | cons hd tl ih =>
      obtain ⟨k2, v⟩ := hd
      by_cases h2 : k2 = k <;> simp [mapLookup, h2, ih]

/-- Field access on a JSON object, `none` on any other shape. -/
def jsonGet (k : String) : Json → Option Json
  | Json.obj fields => mapLookup k fields
  | _ => none

/-- `MCPServiceStatus` from mcp.rs. -/
inductive MCPServiceStatus where
  | Online : MCPServiceStatus
  | Offline : MCPServiceStatus
  | Error : MCPServiceStatus
  | Connecting : MCPServiceStatus
  deriving DecidableEq, Repr

/-- `MCPService` from mcp.rs.  `last_heartbeat : Nat` stands for the
`DateTime<Utc>` instant. -/
structure MCPService where
  id : String
  name : String
  endpoint : String
  status : MCPServiceStatus
  capabilities : List String
  last_heartbeat : Nat
  metadata : List (String × String)

/-- `MCPMessageType` from mcp.rs. -/
inductive MCPMessageType where
  | Request : MCPMessageType
  | Response : MCPMessageType
  | Event : MCPMessageType
  | Heartbeat : MCPMessageType
  | Registration : MCPMessageType
  | Deregistration : MCPMessageType
  deriving DecidableEq, Repr

/-- `MCPMessage` from mcp.rs. -/
structure MCPMessage where
  id : String
  message_type : MCPMessageType
  source : String
  target : String
  payload : Json
  timestamp : Nat

/-- `MCPTool` from mcp.rs. -/
structure MCPTool where
  id : String
  name : String
  description : String
  version : String
  service_id : String
  capabilities : List String
  schema : Json

/-- The coordinator state: the contents of the three `Arc<RwLock<_>>` fields
plus the port. -/
structure MCPCoordinator where
  services : List (String × MCPService)
  tools : List (String × MCPTool)
  message_queue : List MCPMessage
  port : Nat

/-- The error values produced with `anyhow!` in mcp.rs, by originating
lookup. -/
inductive MCPError where
  | ToolNotFound (id : String) : MCPError
  | ServiceNotFound (id : String) : MCPError
  deriving DecidableEq, Repr

/-- `register_service`: insert/overwrite the service keyed by its id;
always `Ok(())`. -/
def MCPCoordinator.register_service (c : MCPCoordinator) (service : MCPService) :
    Except MCPError Unit × MCPCoordinator :=
  (Except.ok (), { c with services := mapInsert service.id service c.services })

/-- `deregister_service`: remove the service by id, then retain only tools
whose `service_id` differs from it; always `Ok(())`. -/
def MCPCoordinator.deregister_service (c : MCPCoordinator) (service_id : String) :
    Except MCPError Unit × MCPCoordinator :=
  (Except.ok (),
    { c with
        services := mapRemove service_id c.services,
        tools := c.tools.filter (fun kt => !(kt.2.service_id == service_id)) })

/-- `get_services`: clone all service values out of the registry. -/
def MCPCoordinator.get_services (c : MCPCoordinator) :
    Except MCPError (List MCPService) × MCPCoordinator :=
  (Except.ok (c.services.map (fun kv => kv.2)), c)

/-- `get_tools`: clone all tool values out of the registry. -/
def MCPCoordinator.get_tools (c : MCPCoordinator) :
    Except MCPError (List MCPTool) × MCPCoordinator :=
  (Except.ok (c.tools.map (fun kv => kv.2)), c)

/-- `send_message`: push the envelope onto the tail of the queue; always
`Ok(())`. -/
def MCPCoordinator.send_message (c : MCPCoordinator) (message : MCPMessage) :
    Except MCPError Unit × MCPCoordinator :=
  (Except.ok (), { c with message_queue := c.message_queue ++ [message] })

/-- `receive_messages`: drain the whole queue, returning the drained
envelopes. -/
def MCPCoordinator.receive_messages (c : MCPCoordinator) :
    Except MCPError (List MCPMessage) × MCPCoordinator :=
  (Except.ok c.message_queue, { c with message_queue := [] })

/-- `health_check`: map each registered service id to its current status
field; reads only. -/
def MCPCoordinator.health_check (c : MCPCoordinator) :
    Except MCPError (List (String × MCPServiceStatus)) × MCPCoordinator :=
  (Except.ok (c.services.map (fun kv => (kv.1, kv.2.status))), c)

/-- `execute_tool`: look the tool up (`NotFound` error when absent), enqueue a
Request envelope via `send_message`, and return the simulated execution
result.  `fresh_id` stands for `Uuid::new_v4()` and `now` for `Utc::now()`. -/
def MCPCoordinator.execute_tool (c : MCPCoordinator) (tool_id : String)
    (parameters : Json) (fresh_id : String) (now : Nat) :
    Except MCPError Json × MCPCoordinator :=
  match mapLookup tool_id c.tools with
  | none => (Except.error (MCPError.ToolNotFound tool_id), c)
  | some tool =>
      let message : MCPMessage :=
        { id := fresh_id
          message_type := MCPMessageType.Request
          source := "coordinator"
          target := tool.service_id
          payload := Json.obj
            [("tool_id", Json.str tool_id), ("parameters", parameters)]
          timestamp := now }
      let c2 := (c.send_message message).2
      (Except.ok (Json.obj
        [("status", Json.str "success"),
         ("result",
           Json.str ("Tool \x27" ++ tool.name ++ "\x27 executed successfully")),
         ("timestamp", Json.num (Int.ofNat now))]), c2)

/-- `get_service_capabilities`: capability list of the service, `NotFound`
error when absent. -/
def MCPCoordinator.get_service_capabilities (c : MCPCoordinator)
    (service_id : String) : Except MCPError (List String) :=
  match mapLookup service_id c.services with
  | none => Except.error (MCPError.ServiceNotFound service_id)
  | some service => Except.ok service.capabilities

/-- `get_tool_schema`: schema of the tool, `NotFound` error when absent. -/
def MCPCoordinator.get_tool_schema (c : MCPCoordinator) (tool_id : String) :
    Except MCPError Json :=
  match mapLookup tool_id c.tools with
  | none => Except.error (MCPError.ToolNotFound tool_id)
  | some tool => Except.ok tool.schema

/-- The `stagewise_mcp` service seeded by `initialize_default_services`;
`now` stands for the `Utc::now()` heartbeat instant. -/
def stagewise_service (now : Nat) : MCPService :=
  { id := "stagewise_mcp"
    name := "Stagewise Visual Programming"
    endpoint := "mcp://localhost:8081/stagewise"
    status := MCPServiceStatus.Online
    capabilities := ["visual_programming", "workflow_automation", "ui_generation"]
    last_heartbeat := now
    metadata := [] }

/-- The `visual_editor` tool seeded by `initialize_default_services`. -/
def visual_editor_tool : MCPTool :=
  { id := "visual_editor"
    name := "Visual Editor"
    description := "Drag-and-drop visual programming interface"
    version := "1.0.0"
    service_id := "stagewise_mcp"
    capabilities := ["create_workflow", "edit_workflow"]
    schema := Json.obj
      [("type", Json.str "object"),
       ("properties", Json.obj
         [("workflow_id", Json.obj [("type", Json.str "string")]),
          ("nodes", Json.obj [("type", Json.str "array")]),
          ("connections", Json.obj [("type", Json.str "array")])])] }

/-- The `ag_ui_mcp` service seeded by `initialize_default_services`. -/
def ag_ui_service (now : Nat) : MCPService :=
  { id := "ag_ui_mcp"
    name := "AG-UI Component Generator"
    endpoint := "mcp://localhost:8082/ag_ui"
    status := MCPServiceStatus.Online
    capabilities := ["ui_generation", "component_creation", "interaction_design"]
    last_heartbeat := now
    metadata := [] }

/-- The `component_generator` tool seeded by `initialize_default_services`. -/
def component_generator_tool : MCPTool :=
  { id := "component_generator"
    name := "Component Generator"
    description := "Generate UI components from natural language descriptions"
    version := "1.0.0"
    service_id := "ag_ui_mcp"
    capabilities := ["generate_component", "customize_component"]
    schema := Json.obj
      [("type", Json.str "object"),
       ("properties", Json.obj
         [("description", Json.obj [("type", Json.str "string")]),
          ("component_type", Json.obj [("type", Json.str "string")]),
          ("style_preferences", Json.obj [("type", Json.str "object")])])] }

/-- The `agent_zero_mcp` service seeded by `initialize_default_services`. -/
def agent_zero_service (now : Nat) : MCPService :=
  { id := "agent_zero_mcp"
    name := "Agent Zero Organic Intelligence"
    endpoint := "mcp://localhost:8083/agent_zero"
    status := MCPServiceStatus.Online
    capabilities := ["organic_learning", "adaptive_behavior", "autonomous_operation"]
    last_heartbeat := now
    metadata := [] }

/-- The `organic_agent` tool seeded by `initialize_default_services`. -/
def organic_agent_tool : MCPTool :=
  { id := "organic_agent"
    name := "Organic Agent"
    description := "Self-learning AI agent with adaptive capabilities"
    version := "1.0.0"
    service_id := "agent_zero_mcp"
    capabilities := ["learn", "adapt", "execute"]
    schema := Json.obj
      [("type", Json.str "object"),
       ("properties", Json.obj
         [("task", Json.obj [("type", Json.str "string")]),
          ("context", Json.obj [("type", Json.str "object")]),
          ("learning_mode", Json.obj [("type", Json.str "boolean")])])] }

/-- `MCPCoordinator::new`: empty state on port 8080, then the default seeding
performed by `initialize_default_services` — the three services and their
tools inserted in source order. -/
def MCPCoordinator.new (now : Nat) : MCPCoordinator :=
  { services :=
      mapInsert "agent_zero_mcp" (agent_zero_service now)
        (mapInsert "ag_ui_mcp" (ag_ui_service now)
          (mapInsert "stagewise_mcp" (stagewise_service now) []))
    tools :=
      mapInsert "organic_agent" organic_agent_tool
        (mapInsert "component_generator" component_generator_tool
          (mapInsert "visual_editor" visual_editor_tool []))
    message_queue := []
    port := 8080 }

/-- Fold a sequence of completed `send_message` calls over the state. -/
def sendAll (c : MCPCoordinator) : List MCPMessage → MCPCoordinator
  | [] => c
  | m :: ms => sendAll (c.send_message m).2 ms

/-- The service registered in the spec scenario: `svc1`, status Online,
capabilities `{"analyze"}`. -/
def svc1 : MCPService :=
  { id := "svc1"
    name := "svc1"
    endpoint := "mcp://localhost:9000/svc1"
    status := MCPServiceStatus.Online
    capabilities := ["analyze"]
    last_heartbeat := 0
    metadata := [] }

/-- The tool registered in the spec scenario: `tool1`, owned by `svc1`. -/
def tool1 : MCPTool :=
  { id := "tool1"
    name := "tool1"
    description := "scenario tool"
    version := "1.0.0"
    service_id := "svc1"
    capabilities := []
    schema := Json.obj [("type", Json.str "object")] }

/-- Coordinator state holding exactly the scenario registrations `svc1` and
`tool1`, with an empty queue. -/
def scenario : MCPCoordinator :=
  { services := [("svc1", svc1)]
    tools := [("tool1", tool1)]
    message_queue := []
    port := 8080 }

theorem sendAll_message_queue (ms : List MCPMessage) :
    ∀ c : MCPCoordinator, (sendAll c ms).message_queue = c.message_queue ++ ms := by
  induction ms with
  | nil => intro c; simp [sendAll]
  | cons m ms ih =>
      intro c
      simp [sendAll, MCPCoordinator.send_message, ih]

theorem filter_idem (p : α → Bool) (l : List α) :
    (l.filter p).filter p = l.filter p := by
  induction l with
  | nil => rfl
  | cons a l ih =>
      by_cases h : p a = true
      · simp [List.filter_cons, h, ih]
      · simp [List.filter_cons, h, ih]

/-- C10: immediately after `MCPCoordinator::new()`, the service registry holds
exactly the three seeded services `stagewise_mcp`, `ag_ui_mcp` and
`agent_zero_mcp`, all `Online`; the tool registry holds exactly the three
seeded tools `visual_editor`, `component_generator` and `organic_agent`, each
of whose `service_id` resolves to one of those services; and the message
queue is empty. -/
theorem new_seeds_defaults (now : Nat) :
    (MCPCoordinator.new now).services =
      [("stagewise_mcp", stagewise_service now), ("ag_ui_mcp", ag_ui_service now),
       ("agent_zero_mcp", agent_zero_service now)] ∧
    (stagewise_service now).status = MCPServiceStatus.Online ∧
    (ag_ui_service now).status = MCPServiceStatus.Online ∧
    (agent_zero_service now).status = MCPServiceStatus.Online ∧
    (MCPCoordinator.new now).tools =
      [("visual_editor", visual_editor_tool),
       ("component_generator", component_generator_tool),
       ("organic_agent", organic_agent_tool)] ∧
    mapLookup visual_editor_tool.service_id (MCPCoordinator.new now).services =
      some (stagewise_service now) ∧
    mapLookup component_generator_tool.service_id (MCPCoordinator.new now).services =
      some (ag_ui_service now) ∧
    mapLookup organic_agent_tool.service_id (MCPCoordinator.new now).services =
      some (agent_zero_service now) ∧
    (MCPCoordinator.new now).message_queue = [] :=
  ⟨rfl, rfl, rfl, rfl, rfl, rfl, rfl, rfl, rfl⟩

/-- C5: after any sequence of completed sends, `receive_messages` returns all
buffered envelopes in enqueue (FIFO) order, leaves the queue empty, and a
second drain with no intervening send returns `[]`. -/
theorem drain_fifo (c : MCPCoordinator) (ms : List MCPMessage) :
    ((sendAll c ms).receive_messages).1 = Except.ok (c.message_queue ++ ms) ∧
    ((sendAll c ms).receive_messages).2.message_queue = [] ∧
    ((((sendAll c ms).receive_messages).2).receive_messages).1 = Except.ok [] := by
  refine ⟨?_, rfl, rfl⟩
  simp [MCPCoordinator.receive_messages, sendAll_message_queue]

/-- C8: `health_check` returns one entry per registered service mapping its
id to its status field, and the state (services, tools and queue) is
returned unchanged. -/
theorem health_check_snapshot (c : MCPCoordinator) :
    (∃ hs, (c.health_check).1 = Except.ok hs ∧
      hs.length = c.services.length ∧
      (∀ sid, mapLookup sid hs =
        Option.map MCPService.status (mapLookup sid c.services))) ∧
    (c.health_check).2 = c := by
  refine ⟨⟨_, rfl, ?_, ?_⟩, rfl⟩
  · simp [MCPCoordinator.health_check]
  · intro sid
    exact mapLookup_map_snd sid MCPService.status c.services

/-- C6: `register_service` returns `Ok(())`, binds `service.id` to exactly
the registered value (last write wins), leaves every other id's binding
unchanged and touches neither the tool registry nor the message queue. -/
theorem register_service_last_write_wins (c : MCPCoordinator) (service : MCPService) :
    (c.register_service service).1 = Except.ok () ∧
    mapLookup service.id ((c.register_service service).2).services = some service ∧
    (∀ k, k ≠ service.id →
      mapLookup k ((c.register_service service).2).services = mapLookup k c.services) ∧
    ((c.register_service service).2).tools = c.tools ∧
    ((c.register_service service).2).message_queue = c.message_queue :=
  ⟨rfl, mapLookup_insert_self _ _ _,
    fun k hk => mapLookup_insert_ne service.id k service c.services hk, rfl, rfl⟩

theorem register_service_last_write_wins_witness :
    ("ghost" ≠ svc1.id) ∧
    mapLookup "ghost" ((scenario.register_service svc1).2).services =
      mapLookup "ghost" scenario.services :=
  ⟨by decide,
    (register_service_last_write_wins scenario svc1).2.2.1 "ghost" (by decide)⟩

/-- C7: `deregister_service` on an id absent from the service registry
returns `Ok(())` and is a no-op on the service map, and deregistering the
same id twice yields the same state and result as once. -/
theorem deregister_service_absent_permissive (c : MCPCoordinator) (sid : String)
    (h : mapLookup sid c.services = none) :
    (c.deregister_service sid).1 = Except.ok () ∧
    ((c.deregister_service sid).2).services = c.services ∧
    (((c.deregister_service sid).2).deregister_service sid).2 =
      (c.deregister_service sid).2 ∧
    (((c.deregister_service sid).2).deregister_service sid).1 = Except.ok () := by
  refine ⟨rfl, mapRemove_of_lookup_none sid c.services h, ?_, rfl⟩
  simp only [MCPCoordinator.deregister_service]
  rw [mapRemove_of_lookup_none sid _ (mapLookup_remove_self sid c.services),
    filter_idem]

theorem deregister_service_absent_permissive_witness :
    mapLookup "ghost" scenario.services = none ∧
    ((scenario.deregister_service "ghost").2).services = scenario.services ∧
    (((scenario.deregister_service "ghost").2).deregister_service "ghost").2 =
      (scenario.deregister_service "ghost").2 :=
  ⟨rfl, (deregister_service_absent_permissive scenario "ghost" rfl).2.1,
    (deregister_service_absent_permissive scenario "ghost" rfl).2.2.1⟩

/-- C3: `execute_tool` on a tool id absent from the tool registry fails with
the `NotFound` error and leaves the whole coordinator state unchanged (in
particular no envelope is enqueued); the code reaches no executor. -/
theorem execute_tool_unregistered_not_found (c : MCPCoordinator) (tool_id : String)
    (parameters : Json) (fresh_id : String) (now : Nat)
    (h : mapLookup tool_id c.tools = none) :
    (c.execute_tool tool_id parameters fresh_id now).1 =
      Except.error (MCPError.ToolNotFound tool_id) ∧
    (c.execute_tool tool_id parameters fresh_id now).2 = c := by
  simp [MCPCoordinator.execute_tool, h]

theorem execute_tool_unregistered_not_found_witness :
    mapLookup "ghost" scenario.tools = none ∧
    (scenario.execute_tool "ghost" Json.null "uuid-w" 0).1 =
      Except.error (MCPError.ToolNotFound "ghost") ∧
    (scenario.execute_tool "ghost" Json.null "uuid-w" 0).2 = scenario :=
  ⟨rfl,
    (execute_tool_unregistered_not_found scenario "ghost" Json.null "uuid-w" 0 rfl).1,
    (execute_tool_unregistered_not_found scenario "ghost" Json.null "uuid-w" 0 rfl).2⟩

/-- C2: `execute_tool` on a registered tool appends exactly one envelope to
the message queue before returning — a Request with source `"coordinator"`,
target the tool's `service_id`, payload `{tool_id, parameters}`, the freshly
generated id and the current timestamp — and leaves both registries
unchanged.  The code invokes no external executor, so this holds under every
executor behaviour. -/
theorem execute_tool_enqueues_request (c : MCPCoordinator) (tool_id : String)
    (tool : MCPTool) (parameters : Json) (fresh_id : String) (now : Nat)
    (h : mapLookup tool_id c.tools = some tool) :
    (c.execute_tool tool_id parameters fresh_id now).2.message_queue =
      c.message_queue ++
        [{ id := fresh_id
           message_type := MCPMessageType.Request
           source := "coordinator"
           target := tool.service_id
           payload := Json.obj
             [("tool_id", Json.str tool_id), ("parameters", parameters)]
           timestamp := now }] ∧
    (c.execute_tool tool_id parameters fresh_id now).2.services = c.services ∧
    (c.execute_tool tool_id parameters fresh_id now).2.tools = c.tools := by
  simp [MCPCoordinator.execute_tool, h, MCPCoordinator.send_message]

theorem execute_tool_enqueues_request_witness :
    mapLookup "tool1" scenario.tools = some tool1 ∧
    (scenario.execute_tool "tool1" Json.null "uuid-w2" 3).2.message_queue =
      scenario.message_queue ++
        [{ id := "uuid-w2"
           message_type := MCPMessageType.Request
           source := "coordinator"
           target := tool1.service_id
           payload := Json.obj
             [("tool_id", Json.str "tool1"), ("parameters", Json.null)]
           timestamp := 3 }] :=
  ⟨rfl,
    (execute_tool_enqueues_request scenario "tool1" tool1 Json.null "uuid-w2" 3 rfl).1⟩

/-- C9: for a registered tool, the outcome returned by `execute_tool` has the
same `status` and `result` fields whatever the parameters (and whatever the
fresh id and clock): the canned outcome depends only on the registered
tool. -/
theorem execute_tool_result_ignores_parameters (c : MCPCoordinator)
    (tool_id : String) (tool : MCPTool) (p1 p2 : Json) (f1 f2 : String)
    (n1 n2 : Nat) (h : mapLookup tool_id c.tools = some tool) :
    Except.map (jsonGet "status") (c.execute_tool tool_id p1 f1 n1).1 =
      Except.map (jsonGet "status") (c.execute_tool tool_id p2 f2 n2).1 ∧
    Except.map (jsonGet "result") (c.execute_tool tool_id p1 f1 n1).1 =
      Except.map (jsonGet "result") (c.execute_tool tool_id p2 f2 n2).1 := by
  unfold MCPCoordinator.execute_tool
  rw [h]
  exact ⟨rfl, rfl⟩

theorem execute_tool_result_ignores_parameters_witness :
    mapLookup "tool1" scenario.tools = some tool1 ∧
    Except.map (jsonGet "result")
        (scenario.execute_tool "tool1" (Json.obj [("x", Json.num 1)]) "a" 1).1 =
      Except.map (jsonGet "result")
        (scenario.execute_tool "tool1" Json.null "b" 2).1 :=
  ⟨rfl,
    (execute_tool_result_ignores_parameters scenario "tool1" tool1
      (Json.obj [("x", Json.num 1)]) Json.null "a" "b" 1 2 rfl).2⟩

/-- C4: `deregister_service` removes from the tool registry exactly the
tools whose `service_id` equals the deregistered id and no others; in the
spec scenario, after deregistering `svc1`, `get_tool_schema("tool1")` fails
with `NotFound`. -/
theorem deregister_service_cascade (c : MCPCoordinator) (sid : String) :
    (∀ kt : String × MCPTool,
      kt ∈ ((c.deregister_service sid).2).tools ↔
        (kt ∈ c.tools ∧ kt.2.service_id ≠ sid)) ∧
    ((scenario.deregister_service "svc1").2).get_tool_schema "tool1" =
      Except.error (MCPError.ToolNotFound "tool1") := by
  constructor
  · intro kt
    simp [MCPCoordinator.deregister_service, List.mem_filter]
  · rfl

theorem deregister_service_cascade_witness :
    (("tool1", tool1) ∈ scenario.tools ∧ tool1.service_id ≠ "svc2") ∧
    ("tool1", tool1) ∈ ((scenario.deregister_service "svc2").2).tools :=
  ⟨⟨List.mem_singleton.mpr rfl, by decide⟩,
    ((deregister_service_cascade scenario "svc2").1 ("tool1", tool1)).mpr
      ⟨List.mem_singleton.mpr rfl, by decide⟩⟩

/-- C1 (counterexample): in the spec scenario, `execute_tool("tool1",
{"x":1})` does not return `{"status":"success","result":{"echo":{"x":1}}}` —
the coordinator never invokes an external executor; it returns its own
canned outcome, whose `result` field is the string
`Tool 'tool1' executed successfully`. -/
theorem execute_tool_scenario_not_executor_echo :
    (scenario.execute_tool "tool1" (Json.obj [("x", Json.num 1)]) "uuid-1" 0).1 ≠
      Except.ok (Json.obj
        [("status", Json.str "success"),
         ("result", Json.obj [("echo", Json.obj [("x", Json.num 1)])])]) ∧
    Except.map (jsonGet "result")
        (scenario.execute_tool "tool1" (Json.obj [("x", Json.num 1)]) "uuid-1" 0).1 ≠
      Except.ok (some (Json.obj [("echo", Json.obj [("x", Json.num 1)])])) := by
  have h1 : (scenario.execute_tool "tool1" (Json.obj [("x", Json.num 1)]) "uuid-1" 0).1 =
      Except.ok (Json.obj
        [("status", Json.str "success"),
         ("result", Json.str "Tool \x27tool1\x27 executed successfully"),
         ("timestamp", Json.num 0)]) := rfl
  rw [h1]
  have h2 : Except.map (jsonGet "result")
      (Except.ok (Json.obj
        [("status", Json.str "success"),
         ("result", Json.str "Tool \x27tool1\x27 executed successfully"),
         ("timestamp", Json.num 0)]) : Except MCPError Json) =
      Except.ok (some (Json.str "Tool \x27tool1\x27 executed successfully")) := rfl
  rw [h2]
  constructor
  · simp
  · simp

/-- C1 (amended): in the spec scenario, `execute_tool("tool1", {"x":1})`
returns the canned outcome `{"status":"success","result":"Tool 'tool1'
executed successfully","timestamp":now}` without consulting any executor,
and a subsequent `drain()` returns exactly one envelope, with target
`"svc1"` and payload `{tool_id:"tool1", parameters:{"x":1}}`. -/
theorem execute_tool_scenario_canned_result_and_audit :
    (scenario.execute_tool "tool1" (Json.obj [("x", Json.num 1)]) "uuid-1" 7).1 =
      Except.ok (Json.obj
        [("status", Json.str "success"),
         ("result", Json.str "Tool \x27tool1\x27 executed successfully"),
         ("timestamp", Json.num 7)]) ∧
    (((scenario.execute_tool "tool1" (Json.obj [("x", Json.num 1)]) "uuid-1" 7).2).receive_messages).1 =
      Except.ok
        [{ id := "uuid-1"
           message_type := MCPMessageType.Request
           source := "coordinator"
           target := "svc1"
           payload := Json.obj
             [("tool_id", Json.str "tool1"),
              ("parameters", Json.obj [("x", Json.num 1)])]
           timestamp := 7 }] :=
  ⟨rfl, rfl⟩
